import Mathlib

/-!
Verification development for the AquaFit-Buddy bot (src/bot.py).

The bot's Python floats are modelled as exact rationals (ℚ); Python's
float floor-division `//` becomes `Int.floor` of the rational quotient.
External HTTP calls (weather, food lookup) are modelled by passing their
decoded results as explicit parameters; an exception escaping a handler
is modelled by the handler returning `none`.
-/

set_option maxRecDepth 4000

/-- The `PendingFood` dataclass of bot.py. -/
structure PendingFood where
  name : String
  kcal_per_100g : ℚ
deriving DecidableEq, Repr

/-- One entry of the `users` dict, as initialised by `get_user` in bot.py. -/
structure UserRecord where
  weight : Option ℚ
  height : Option ℚ
  age : Option ℚ
  activity : Option ℚ
  city : Option String
  water_goal : Option ℚ
  calorie_goal : Option ℚ
  logged_water : ℚ
  logged_calories : ℚ
  burned_calories : ℚ
  pending_food : Option PendingFood
deriving DecidableEq, Repr

/-- The default record that `get_user` installs on first access. -/
def init_record : UserRecord :=
  { weight := none, height := none, age := none, activity := none, city := none
  , water_goal := none, calorie_goal := none
  , logged_water := 0, logged_calories := 0, burned_calories := 0
  , pending_food := none }

/-- The profile dialogue's `context.user_data` scratch dict: the keys
`set_weight` .. `set_city` store into it, all absent initially. -/
structure Scratch where
  weight : Option ℚ
  height : Option ℚ
  age : Option ℚ
  activity : Option ℚ
  city : Option String
deriving DecidableEq, Repr

/-- `context.user_data` right after `clear()` (or before any writes). -/
def Scratch.emptyData : Scratch :=
  { weight := none, height := none, age := none, activity := none, city := none }

/-- The six profile-conversation states `SET_WEIGHT .. SET_CAL_GOAL` of bot.py. -/
inductive ProfileState where
  | SET_WEIGHT | SET_HEIGHT | SET_AGE | SET_ACTIVITY | SET_CITY | SET_CAL_GOAL
deriving DecidableEq, Repr

/-- The nutriments object of one OpenFoodFacts product, restricted to the two
keys `search_food_kcal` reads. -/
structure Nutriments where
  energy_kcal_100g : Option ℚ
  energy_100g : Option ℚ
deriving DecidableEq, Repr

/-- One OpenFoodFacts product, restricted to the keys `search_food_kcal` reads. -/
structure Product where
  product_name : Option String
  nutriments : Nutriments
deriving DecidableEq, Repr

/-- Accumulates the decimal digits of `cs` onto `acc`, failing on any
non-digit (an empty list yields `acc`, callers guard emptiness themselves). -/
def pyDigitsFrom (acc : Nat) : List Char → Option Nat
  | [] => some acc
  | c :: cs =>
    if c.isDigit then pyDigitsFrom (acc * 10 + (c.toNat - 48)) cs else none

/-- The decimal value of a digit string (0 for the empty string). -/
def pyDigits (cs : List Char) : Option Nat := pyDigitsFrom 0 cs

/-- Models Python's `float(text)` on unsigned plain decimal literals
(`"12"`, `"12.5"`, `".5"`, `"5."`); other accepted Python spellings
(exponents, underscores, inf/nan, surrounding whitespace) are out of
scope of this model and yield `none`. -/
def pyFloatUnsigned (cs : List Char) : Option ℚ :=
  let intPart := cs.takeWhile (fun c => c ≠ '.')
  match cs.dropWhile (fun c => c ≠ '.') with
  | [] =>
    if intPart.isEmpty then none
    else (pyDigits intPart).map (fun n => (n : ℚ))
  | _ :: frac =>
    if intPart.isEmpty && frac.isEmpty then none
    else
      match pyDigits intPart, pyDigits frac with
      | some i, some f => some ((i : ℚ) + (f : ℚ) / (10 ^ frac.length))
      | _, _ => none

/-- Models Python's `float(text)`: optional sign, then an unsigned decimal. -/
def pyFloat (cs : List Char) : Option ℚ :=
  match cs with
  | '-' :: rest => (pyFloatUnsigned rest).map (fun q => -q)
  | '+' :: rest => pyFloatUnsigned rest
  | _ => pyFloatUnsigned cs

/-- `parse_float` of bot.py: replace every `,` by `.`, then parse as a float;
`None` on failure. -/
def parse_float (text : String) : Option ℚ :=
  pyFloat (text.data.map (fun c => if c = ',' then '.' else c))

/-- Python float floor-division `a // b`, as a rational. -/
def floordiv (a b : ℚ) : ℚ := (⌊a / b⌋ : ℤ)

/-- `calc_water_goal` of bot.py. -/
def calc_water_goal (weight activity_min : ℚ) (temp_c : Option ℚ) : ℚ :=
  let base := weight * 30
  let activity_bonus := 500 * floordiv activity_min 30
  let heat_bonus : ℚ :=
    match temp_c with
    | none => 0
    | some t => if t > 30 then 1000 else if t > 25 then 500 else 0
  base + activity_bonus + heat_bonus

/-- `calc_calorie_goal` of bot.py. -/
def calc_calorie_goal (weight height age activity_min : ℚ) : ℚ :=
  let base := 10 * weight + 6.25 * height - 5 * age
  let activity_bonus : ℚ :=
    if activity_min ≤ 30 then 200 else if activity_min ≤ 60 then 300 else 400
  base + activity_bonus

/-- Lower-cases every character of `s`, modelling Python's `str.lower`
on the ASCII workout-type names the burn table uses. -/
def lowerStr (s : String) : String := String.mk (s.data.map Char.toLower)

/-- Models Python's `str.strip`: drop whitespace from both ends. -/
def pyStrip (s : String) : String :=
  String.mk ((((s.data.dropWhile Char.isWhitespace).reverse).dropWhile
    Char.isWhitespace).reverse)

/-- Models Python's `" ".join(args)`. -/
def joinSpace : List String → String
  | [] => ""
  | [s] => s
  | s :: rest => s ++ " " ++ joinSpace rest

/-- The per-minute burn dict literal inside `calc_workout_burned`. -/
def per_min_table : List (String × ℚ) :=
  [("run", 10), ("running", 10), ("jog", 8), ("walk", 4), ("walking", 4),
   ("bike", 8), ("cycling", 8), ("swim", 9), ("gym", 6), ("hiit", 12), ("yoga", 3)]

/-- `calc_workout_burned` of bot.py: dict lookup on the lower-cased type,
default 5. -/
def calc_workout_burned (workout_type : String) (minutes weight : ℚ) : ℚ :=
  let per_min := (per_min_table.lookup (lowerStr workout_type)).getD 5
  minutes * per_min * (weight / 70)

/-- The result-decoding core of `search_food_kcal` in bot.py, applied to the
decoded `products` list of the HTTP response; the whole response is `none`
when the request raised (the function then returns `None`). -/
def search_food_kcal (food_name : String) (response : Option (List Product)) :
    Option PendingFood :=
  match response with
  | none => none
  | some products =>
    match products with
    | [] => none
    | product :: _ =>
      let name :=
        match product.product_name with
        | some n => if n = "" then food_name else n
        | none => food_name
      let kcal : Option ℚ :=
        match product.nutriments.energy_kcal_100g with
        | some k => some k
        | none =>
          match product.nutriments.energy_100g with
          | some e => some (e * 0.239006)
          | none => none
      match kcal with
      | none => none
      | some k => some { name := name, kcal_per_100g := k }

/-- `set_weight` of bot.py: on an unparsable or non-positive reply, re-prompt
and stay in `SET_WEIGHT` without touching the scratch dict; otherwise store
the weight and advance. -/
def set_weight (scratch : Scratch) (text : String) : ProfileState × Scratch :=
  match parse_float text with
  | none => (ProfileState.SET_WEIGHT, scratch)
  | some value =>
    if value ≤ 0 then (ProfileState.SET_WEIGHT, scratch)
    else (ProfileState.SET_HEIGHT, { scratch with weight := some value })

/-- `set_height` of bot.py. -/
def set_height (scratch : Scratch) (text : String) : ProfileState × Scratch :=
  match parse_float text with
  | none => (ProfileState.SET_HEIGHT, scratch)
  | some value =>
    if value ≤ 0 then (ProfileState.SET_HEIGHT, scratch)
    else (ProfileState.SET_AGE, { scratch with height := some value })

/-- `set_age` of bot.py. -/
def set_age (scratch : Scratch) (text : String) : ProfileState × Scratch :=
  match parse_float text with
  | none => (ProfileState.SET_AGE, scratch)
  | some value =>
    if value ≤ 0 then (ProfileState.SET_AGE, scratch)
    else (ProfileState.SET_ACTIVITY, { scratch with age := some value })

/-- `set_activity` of bot.py: the constraint here is `value ≥ 0`. -/
def set_activity (scratch : Scratch) (text : String) : ProfileState × Scratch :=
  match parse_float text with
  | none => (ProfileState.SET_ACTIVITY, scratch)
  | some value =>
    if value < 0 then (ProfileState.SET_ACTIVITY, scratch)
    else (ProfileState.SET_CITY, { scratch with activity := some value })

/-- `set_city` of bot.py: requires non-empty stripped text. -/
def set_city (scratch : Scratch) (text : String) : ProfileState × Scratch :=
  let city := pyStrip text
  if city = "" then (ProfileState.SET_CITY, scratch)
  else (ProfileState.SET_CAL_GOAL, { scratch with city := some city })

/-- `set_cal_goal` of bot.py. It first reads the five collected scratch keys
(a missing key raises `KeyError`, modelled as `none`), then parses the
override; an unparsable or negative reply re-prompts without mutation; a
valid reply commits the whole profile to the user record, clears the scratch
dict and ends the dialogue (`ProfileState` result `none`). `temp_c` is the
weather adapter's result for the collected city. -/
def set_cal_goal (scratch : Scratch) (record : UserRecord) (text : String)
    (temp_c : Option ℚ) : Option (Option ProfileState × Scratch × UserRecord) :=
  match scratch.weight, scratch.height, scratch.age, scratch.activity, scratch.city with
  | some weight, some height, some age, some activity, some city =>
    match parse_float text with
    | none => some (some ProfileState.SET_CAL_GOAL, scratch, record)
    | some manual_goal =>
      if manual_goal < 0 then some (some ProfileState.SET_CAL_GOAL, scratch, record)
      else
        let water_goal := calc_water_goal weight activity temp_c
        let calorie_goal :=
          if manual_goal > 0 then manual_goal
          else calc_calorie_goal weight height age activity
        some (none, Scratch.emptyData,
          { record with
              weight := some weight, height := some height, age := some age
            , activity := some activity, city := some city
            , water_goal := some water_goal, calorie_goal := some calorie_goal })
  | _, _, _, _, _ => none

/-- One text reply inside the profile conversation, dispatched by state as
the `ConversationHandler` of bot.py does; the resulting `Option ProfileState`
is `none` when the conversation ends. -/
def profile_step (st : ProfileState) (scratch : Scratch) (record : UserRecord)
    (text : String) (temp_c : Option ℚ) :
    Option (Option ProfileState × Scratch × UserRecord) :=
  match st with
  | ProfileState.SET_WEIGHT =>
    let (st', sc') := set_weight scratch text
    some (some st', sc', record)
  | ProfileState.SET_HEIGHT =>
    let (st', sc') := set_height scratch text
    some (some st', sc', record)
  | ProfileState.SET_AGE =>
    let (st', sc') := set_age scratch text
    some (some st', sc', record)
  | ProfileState.SET_ACTIVITY =>
    let (st', sc') := set_activity scratch text
    some (some st', sc', record)
  | ProfileState.SET_CITY =>
    let (st', sc') := set_city scratch text
    some (some st', sc', record)
  | ProfileState.SET_CAL_GOAL => set_cal_goal scratch record text temp_c

/-- `log_water` of bot.py: guards (profile set, an argument present, amount
parses and is > 0) leave the record unchanged; a valid amount is added to
`logged_water`, after which the reply computes `water_goal - logged_water`:
if `water_goal` were still `None` that subtraction raises (`none` result). -/
def log_water (record : UserRecord) (args : List String) : Option UserRecord :=
  match record.weight with
  | none => some record
  | some _ =>
    match args with
    | [] => some record
    | a :: _ =>
      match parse_float a with
      | none => some record
      | some amount =>
        if amount ≤ 0 then some record
        else
          let record' := { record with logged_water := record.logged_water + amount }
          match record'.water_goal with
          | none => none
          | some _ => some record'

/-- `log_food` of bot.py (the food conversation's entry): requires the profile
(weight set) and a non-empty argument list, queries the food adapter with the
joined stripped arguments, and on success stores the candidate as
`pending_food` and enters the grams state (`true`); otherwise the record is
untouched and no dialogue starts (`false`). -/
def log_food (record : UserRecord) (args : List String)
    (response : Option (List Product)) : UserRecord × Bool :=
  match record.weight with
  | none => (record, false)
  | some _ =>
    match args with
    | [] => (record, false)
    | _ :: _ =>
      let food_name := pyStrip (joinSpace args)
      match search_food_kcal food_name response with
      | none => (record, false)
      | some pending => ({ record with pending_food := some pending }, true)

/-- `log_food_grams` of bot.py: with no pending food the dialogue ends; an
unparsable or non-positive grams reply re-prompts (stays in the grams state,
`true`); a valid one adds `kcal_per_100g * grams / 100` to `logged_calories`,
clears `pending_food` and ends the dialogue (`false`). -/
def log_food_grams (record : UserRecord) (text : String) : UserRecord × Bool :=
  match record.pending_food with
  | none => (record, false)
  | some pending =>
    match parse_float text with
    | none => (record, true)
    | some grams =>
      if grams ≤ 0 then (record, true)
      else
        let kcal := pending.kcal_per_100g * grams / 100
        ({ record with
             logged_calories := record.logged_calories + kcal
           , pending_food := none }, false)

/-- `log_workout` of bot.py: guards (profile set, two arguments, minutes
parses and is > 0) leave the record unchanged; otherwise the computed burn is
added to `burned_calories`. -/
def log_workout (record : UserRecord) (args : List String) : UserRecord :=
  match record.weight with
  | none => record
  | some weight =>
    match args with
    | workout_type :: mins :: _ =>
      match parse_float mins with
      | none => record
      | some minutes =>
        if minutes ≤ 0 then record
        else
          { record with
              burned_calories :=
                record.burned_calories + calc_workout_burned workout_type minutes weight }
    | _ => record

/-- The figures `check_progress` of bot.py puts into its report. -/
structure Progress where
  logged_water : ℚ
  water_goal : ℚ
  water_left : ℚ
  logged_calories : ℚ
  calorie_goal : ℚ
  burned : ℚ
  net : ℚ
  remaining : ℚ
deriving DecidableEq, Repr

/-- A handler's visible outcome: a normal reply, or an escaped exception. -/
inductive Outcome (α : Type) where
  | ok : α → Outcome α
  | err : Outcome α
deriving DecidableEq, Repr

/-- `check_progress` of bot.py: with no profile it only sends a guidance
message (`ok none`); otherwise it reads both goals — a `None` goal would make
the subtraction raise (`err`) — and reports the computed figures, mutating
nothing. -/
def check_progress (record : UserRecord) : Outcome (Option Progress) :=
  match record.weight with
  | none => Outcome.ok none
  | some _ =>
    match record.water_goal, record.calorie_goal with
    | some water_goal, some calorie_goal =>
      let net := record.logged_calories - record.burned_calories
      Outcome.ok (some
        { logged_water := record.logged_water
        , water_goal := water_goal
        , water_left := max (water_goal - record.logged_water) 0
        , logged_calories := record.logged_calories
        , calorie_goal := calorie_goal
        , burned := record.burned_calories
        , net := net
        , remaining := max (calorie_goal - net) 0 })
    | _, _ => Outcome.err

/-- One user's whole conversational state: the stored record, which of the two
conversations is active (`profile_dialog` holds the profile state when the
profile conversation is active; `food_dialog` is true in the `FOOD_GRAMS`
state), and the `context.user_data` scratch dict. -/
structure BotState where
  record : UserRecord
  profile_dialog : Option ProfileState
  food_dialog : Bool
  scratch : Scratch
deriving DecidableEq, Repr

/-- The state before any interaction. -/
def init_state : BotState :=
  { record := init_record, profile_dialog := none, food_dialog := false
  , scratch := Scratch.emptyData }

/-- One inbound update, with the results of any external lookup it triggers
attached (`temp` for the weather call made at the profile's final step,
`response` for the food lookup). -/
inductive Event where
  | SetProfileCmd : Event
  | TextMsg : String → Option ℚ → Event
  | LogWaterCmd : List String → Event
  | LogFoodCmd : List String → Option (List Product) → Event
  | LogWorkoutCmd : List String → Event
  | CheckProgressCmd : Event
  | CancelCmd : Event
deriving DecidableEq, Repr

/-- One update dispatched as bot.py's handler registration does: the profile
conversation is registered first, so it receives text while active; a text
with neither conversation active is ignored; `/log_water`, `/log_workout` and
`/check_progress` are plain command handlers reachable at any time;
`/log_food` enters the food conversation unless it is already active;
`/cancel` is a fallback of both conversations (profile first) and clears the
scratch dict when it fires. `none` models an escaped exception. -/
def step (s : BotState) (e : Event) : Option BotState :=
  match e with
  | Event.SetProfileCmd =>
    match s.profile_dialog with
    | some _ => some s
    | none => some { s with profile_dialog := some ProfileState.SET_WEIGHT }
  | Event.TextMsg text temp =>
    match s.profile_dialog with
    | some st =>
      match profile_step st s.scratch s.record text temp with
      | none => none
      | some (st', sc', rec') =>
        some { s with profile_dialog := st', scratch := sc', record := rec' }
    | none =>
      if s.food_dialog then
        let (rec', cont) := log_food_grams s.record text
        some { s with record := rec', food_dialog := cont }
      else some s
  | Event.LogWaterCmd args =>
    (log_water s.record args).map (fun r => { s with record := r })
  | Event.LogFoodCmd args response =>
    if s.food_dialog then some s
    else
      let (rec', entered) := log_food s.record args response
      some { s with record := rec', food_dialog := entered }
  | Event.LogWorkoutCmd args =>
    some { s with record := log_workout s.record args }
  | Event.CheckProgressCmd =>
    match check_progress s.record with
    | Outcome.err => none
    | Outcome.ok _ => some s
  | Event.CancelCmd =>
    match s.profile_dialog with
    | some _ => some { s with profile_dialog := none, scratch := Scratch.emptyData }
    | none =>
      if s.food_dialog then
        some { s with food_dialog := false, scratch := Scratch.emptyData }
      else some s

/-- Runs a list of events from a state, stopping on an escaped exception. -/
def runSteps (s : BotState) (es : List Event) : Option BotState :=
  es.foldlM step s

/-- The states the bot can actually be in: `init_state` and everything an
update chain can produce from it. -/
inductive Reachable : BotState → Prop where
  | init : Reachable init_state
  | next {s s' : BotState} {e : Event} :
      Reachable s → step s e = some s' → Reachable s'

/-- The heat bonus as the specification words it: 1000 when t > 30, 500 when
25 < t ≤ 30, and 0 when t ≤ 25 or the temperature is unknown. -/
def heatBonusSpec : Option ℚ → ℚ
  | none => 0
  | some t => if 30 < t then 1000 else if 25 < t ∧ t ≤ 30 then 500 else 0

/-- The water goal as the specification words it. -/
def waterGoalSpec (weight activity : ℚ) (temp : Option ℚ) : ℚ :=
  weight * 30 + 500 * ((⌊activity / 30⌋ : ℤ) : ℚ) + heatBonusSpec temp

/-- The calorie activity bonus as the specification words it: 200 when
minutes ≤ 30, 300 when 30 < minutes ≤ 60, 400 otherwise. -/
def calorieBonusSpec (minutes : ℚ) : ℚ :=
  if minutes ≤ 30 then 200 else if 30 < minutes ∧ minutes ≤ 60 then 300 else 400

/-- The calorie goal as the specification words it. -/
def calorieGoalSpec (weight height age minutes : ℚ) : ℚ :=
  10 * weight + 25 / 4 * height - 5 * age + calorieBonusSpec minutes

/-- The workout rate table as the specification words it: case-insensitive,
run/running=10, jog=8, walk/walking=4, bike/cycling=8, swim=9, gym=6,
hiit=12, yoga=3, default 5. -/
def workoutRateSpec (ty : String) : ℚ :=
  let t := lowerStr ty
  if t = "run" ∨ t = "running" then 10
  else if t = "jog" then 8
  else if t = "walk" ∨ t = "walking" then 4
  else if t = "bike" ∨ t = "cycling" then 8
  else if t = "swim" then 9
  else if t = "gym" then 6
  else if t = "hiit" then 12
  else if t = "yoga" then 3
  else 5

/-- All five scratch keys the final profile step reads are present. -/
def scratchComplete (sc : Scratch) : Prop :=
  sc.weight.isSome = true ∧ sc.height.isSome = true ∧ sc.age.isSome = true ∧
    sc.activity.isSome = true ∧ sc.city.isSome = true

/-- A reply the given profile state rejects: unparsable, or violating the
state's constraint (weight, height, age > 0; activity ≥ 0; override ≥ 0;
non-empty stripped city text). -/
def invalid_reply (st : ProfileState) (text : String) : Bool :=
  match st with
  | ProfileState.SET_WEIGHT | ProfileState.SET_HEIGHT | ProfileState.SET_AGE =>
    match parse_float text with
    | none => true
    | some v => decide (v ≤ 0)
  | ProfileState.SET_ACTIVITY =>
    match parse_float text with
    | none => true
    | some v => decide (v < 0)
  | ProfileState.SET_CITY => pyStrip text == ""
  | ProfileState.SET_CAL_GOAL =>
    match parse_float text with
    | none => true
    | some v => decide (v < 0)

/-- A record as it looks right after a profile commit with weight 70. -/
def profiledRecord : UserRecord :=
  { init_record with
      weight := some 70, water_goal := some 2100, calorie_goal := some 2000 }

/-- An idle conversational state over a committed profile. -/
def profiledState : BotState :=
  { init_state with record := profiledRecord }

/-- A state in the middle of a food dialogue: the lookup step has stored a
pending food on the record and the grams question is outstanding. -/
def pendingFoodState : BotState :=
  { record := { profiledRecord with
      pending_food := some { name := "Bread", kcal_per_100g := 250 } }
  , profile_dialog := none, food_dialog := true, scratch := Scratch.emptyData }

/-- A lookup result whose first product reports an energy density of 0 kcal
per 100 g. -/
def zeroKcalProduct : Product :=
  { product_name := some "Airy snack"
  , nutriments := { energy_kcal_100g := some 0, energy_100g := none } }

/-- What the conversation flow guarantees about the scratch dict in each
profile state: every state's earlier keys have been stored. -/
def dialogScratchInv : Option ProfileState → Scratch → Prop
  | some ProfileState.SET_HEIGHT, sc => sc.weight.isSome = true
  | some ProfileState.SET_AGE, sc =>
      sc.weight.isSome = true ∧ sc.height.isSome = true
  | some ProfileState.SET_ACTIVITY, sc =>
      sc.weight.isSome = true ∧ sc.height.isSome = true ∧ sc.age.isSome = true
  | some ProfileState.SET_CITY, sc =>
      sc.weight.isSome = true ∧ sc.height.isSome = true ∧
        sc.age.isSome = true ∧ sc.activity.isSome = true
  | some ProfileState.SET_CAL_GOAL, sc => scratchComplete sc
  | _, _ => True

/-- The state invariant the update loop maintains: weight and the two goals
are set together (the profile commit is the only writer of all three), every
stored weight is positive, and the scratch dict holds what the dialogue has
collected so far. -/
structure BotInv (s : BotState) : Prop where
  goals_iff : s.record.weight.isSome = true ↔
    (s.record.water_goal.isSome = true ∧ s.record.calorie_goal.isSome = true)
  wpos : ∀ w, s.record.weight = some w → 0 < w
  swpos : ∀ w, s.scratch.weight = some w → 0 < w
  dlg : dialogScratchInv s.profile_dialog s.scratch

/-- The dialogue trace weight 70, height 175, age 30, activity 45, city
Moscow, override 0 (weather unknown), followed by a food lookup whose first
product reports a negative energy density: intermediate states `q1`–`q9`. -/
def q1 : BotState := { init_state with profile_dialog := some ProfileState.SET_WEIGHT }

def q2 : BotState :=
  { q1 with
      profile_dialog := some ProfileState.SET_HEIGHT
    , scratch := { Scratch.emptyData with weight := some 70 } }

def q3 : BotState :=
  { q2 with
      profile_dialog := some ProfileState.SET_AGE
    , scratch := { q2.scratch with height := some 175 } }

def q4 : BotState :=
  { q3 with
      profile_dialog := some ProfileState.SET_ACTIVITY
    , scratch := { q3.scratch with age := some 30 } }

def q5 : BotState :=
  { q4 with
      profile_dialog := some ProfileState.SET_CITY
    , scratch := { q4.scratch with activity := some 45 } }

def q6 : BotState :=
  { q5 with
      profile_dialog := some ProfileState.SET_CAL_GOAL
    , scratch := { q5.scratch with city := some "Moscow" } }

/-- The record the trace's profile commit stores (water 2600, calories
1943.75, as in the spec's own worked example). -/
def committedRecord : UserRecord :=
  { init_record with
      weight := some 70, height := some 175, age := some 30, activity := some 45
    , city := some "Moscow", water_goal := some 2600, calorie_goal := some 1943.75 }

def q7 : BotState :=
  { record := committedRecord, profile_dialog := none, food_dialog := false
  , scratch := Scratch.emptyData }

/-- A hostile lookup result: the nutrition database reports −100 kcal/100g. -/
def negKcalProduct : Product :=
  { product_name := some "Antifood"
  , nutriments := { energy_kcal_100g := some (-100), energy_100g := none } }

def q8 : BotState :=
  { q7 with
      record := { committedRecord with
        pending_food := some { name := "Antifood", kcal_per_100g := -100 } }
    , food_dialog := true }

def q9 : BotState :=
  { q8 with
      record := { committedRecord with logged_calories := -100 }
    , food_dialog := false }

/-- C1: for every weight, activity minutes and optional temperature, the water
goal is weight × 30 plus 500 × floor(activity / 30) plus the heat bonus that
is 1000 for t > 30, 500 for 25 < t ≤ 30 and 0 for t ≤ 25 or unknown t; the
boundaries are strict, so t = 25 adds nothing and t = 30 adds 500. -/
theorem calc_water_goal_meets_spec :
    (∀ (w a : ℚ) (t : Option ℚ), calc_water_goal w a t = waterGoalSpec w a t) ∧
    (∀ w a : ℚ, calc_water_goal w a (some 25) = calc_water_goal w a none) ∧
    (∀ w a : ℚ, calc_water_goal w a (some 30) = calc_water_goal w a none + 500) := by
  refine ⟨?_, ?_, ?_⟩
  · intro w a t
    cases t with
    | none => rfl
    | some t =>
      by_cases h30 : (30 : ℚ) < t
      · simp [calc_water_goal, waterGoalSpec, heatBonusSpec, floordiv, h30]
      · by_cases h25 : (25 : ℚ) < t
        · have hle : t ≤ 30 := not_lt.mp h30
          simp [calc_water_goal, waterGoalSpec, heatBonusSpec, floordiv, h30, h25, hle]
        · simp [calc_water_goal, waterGoalSpec, heatBonusSpec, floordiv, h30, h25]
  · intro w a
    norm_num [calc_water_goal]
  · intro w a
    norm_num [calc_water_goal]

/-- C2: the computed calorie goal matches the spec's formula with inclusive
activity-bonus boundaries, and a completed profile dialogue with a valid
override v ≥ 0 stores v verbatim when v > 0 and the formula value when v = 0. -/
theorem calorie_goal_override_meets_spec :
    (∀ w h a m : ℚ, calc_calorie_goal w h a m = calorieGoalSpec w h a m) ∧
    (∀ (w h a act : ℚ) (c : String) (record : UserRecord) (text : String)
        (temp : Option ℚ) (v : ℚ),
      parse_float text = some v → 0 ≤ v →
      set_cal_goal { weight := some w, height := some h, age := some a
                   , activity := some act, city := some c } record text temp =
        some (none, Scratch.emptyData,
          { record with
              weight := some w, height := some h, age := some a
            , activity := some act, city := some c
            , water_goal := some (calc_water_goal w act temp)
            , calorie_goal :=
                some (if 0 < v then v else calc_calorie_goal w h a act) })) := by
  constructor
  · intro w h a m
    by_cases h30 : m ≤ 30
    · simp only [calc_calorie_goal, calorieGoalSpec, calorieBonusSpec, if_pos h30]
      norm_num
    · by_cases h60 : m ≤ 60
      · have hlt : (30 : ℚ) < m := not_le.mp h30
        simp only [calc_calorie_goal, calorieGoalSpec, calorieBonusSpec,
          if_neg h30, if_pos h60, if_pos (And.intro hlt h60)]
        norm_num
      · have hnot : ¬((30 : ℚ) < m ∧ m ≤ 60) := fun hc => h60 hc.2
        simp only [calc_calorie_goal, calorieGoalSpec, calorieBonusSpec,
          if_neg h30, if_neg h60, if_neg hnot]
        norm_num
  · intro w h a act c record text temp v hparse hv
    have hnlt : ¬v < 0 := not_lt.mpr hv
    simp [set_cal_goal, hparse, hnlt, gt_iff_lt]

lemma per_min_lookup_eq (t : String) :
    ((per_min_table.lookup t).getD 5 : ℚ) =
      (if t = "run" ∨ t = "running" then 10
       else if t = "jog" then 8
       else if t = "walk" ∨ t = "walking" then 4
       else if t = "bike" ∨ t = "cycling" then 8
       else if t = "swim" then 9
       else if t = "gym" then 6
       else if t = "hiit" then 12
       else if t = "yoga" then 3
       else 5) := by
  by_cases h1 : t = "run"
  · simp [per_min_table, List.lookup, h1]
  by_cases h2 : t = "running"
  · simp [per_min_table, List.lookup, h1, h2]
  by_cases h3 : t = "jog"
  · simp [per_min_table, List.lookup, h1, h2, h3]
  by_cases h4 : t = "walk"
  · simp [per_min_table, List.lookup, h1, h2, h3, h4]
  by_cases h5 : t = "walking"
  · simp [per_min_table, List.lookup, h1, h2, h3, h4, h5]
  by_cases h6 : t = "bike"
  · simp [per_min_table, List.lookup, h1, h2, h3, h4, h5, h6]
  by_cases h7 : t = "cycling"
  · simp [per_min_table, List.lookup, h1, h2, h3, h4, h5, h6, h7]
  by_cases h8 : t = "swim"
  · simp [per_min_table, List.lookup, h1, h2, h3, h4, h5, h6, h7, h8]
  by_cases h9 : t = "gym"
  · simp [per_min_table, List.lookup, h1, h2, h3, h4, h5, h6, h7, h8, h9]
  by_cases h10 : t = "hiit"
  · simp [per_min_table, List.lookup, h1, h2, h3, h4, h5, h6, h7, h8, h9, h10]
  by_cases h11 : t = "yoga"
  · simp [per_min_table, List.lookup, h1, h2, h3, h4, h5, h6, h7, h8, h9, h10, h11]
  · have e1 : (t == "run") = false := beq_eq_false_iff_ne.mpr h1
    have e2 : (t == "running") = false := beq_eq_false_iff_ne.mpr h2
    have e3 : (t == "jog") = false := beq_eq_false_iff_ne.mpr h3
    have e4 : (t == "walk") = false := beq_eq_false_iff_ne.mpr h4
    have e5 : (t == "walking") = false := beq_eq_false_iff_ne.mpr h5
    have e6 : (t == "bike") = false := beq_eq_false_iff_ne.mpr h6
    have e7 : (t == "cycling") = false := beq_eq_false_iff_ne.mpr h7
    have e8 : (t == "swim") = false := beq_eq_false_iff_ne.mpr h8
    have e9 : (t == "gym") = false := beq_eq_false_iff_ne.mpr h9
    have e10 : (t == "hiit") = false := beq_eq_false_iff_ne.mpr h10
    have e11 : (t == "yoga") = false := beq_eq_false_iff_ne.mpr h11
    simp [per_min_table, List.lookup, h1, h2, h3, h4, h5, h6, h7, h8, h9, h10, h11,
      e1, e2, e3, e4, e5, e6, e7, e8, e9, e10, e11]

/-- C8: the workout burn is minutes × rate × (weight / 70) with the rate read
case-insensitively from the fixed table (run/running 10, jog 8, walk/walking 4,
bike/cycling 8, swim 9, gym 6, hiit 12, yoga 3, default 5); in particular
burn("RUN", 30, 70) = 300 and burn("unknown-type", 10, 70) = 50. -/
theorem calc_workout_burned_meets_spec :
    (∀ (ty : String) (m w : ℚ),
      calc_workout_burned ty m w = m * workoutRateSpec ty * (w / 70)) ∧
    calc_workout_burned "RUN" 30 70 = 300 ∧
    calc_workout_burned "unknown-type" 10 70 = 50 := by
  refine ⟨?_, ?_, ?_⟩
  · intro ty m w
    simp only [calc_workout_burned, workoutRateSpec, per_min_lookup_eq]
  · simp +decide [calc_workout_burned, lowerStr, per_min_table, List.lookup]
    norm_num
  · simp +decide [calc_workout_burned, lowerStr, per_min_table, List.lookup]
    norm_num

/-- C6: in every profile-dialogue state, a reply that fails to parse or
violates the state's constraint re-prompts without leaving the state and
changes neither the collected scratch values nor the user record (at the final
state the collected keys are present, as the dialogue order guarantees);
a comma decimal separator is accepted, e.g. "2,5" parses as 5/2. -/
theorem invalid_input_keeps_state :
    (∀ (st : ProfileState) (sc : Scratch) (record : UserRecord) (text : String)
        (temp : Option ℚ),
      (st = ProfileState.SET_CAL_GOAL → scratchComplete sc) →
      invalid_reply st text = true →
      profile_step st sc record text temp = some (some st, sc, record)) ∧
    parse_float "2,5" = some (5 / 2) := by
  constructor
  · intro st sc record text temp hcomplete hbad
    cases st
    case SET_WEIGHT =>
      simp only [invalid_reply] at hbad
      simp only [profile_step, set_weight]
      cases hp : parse_float text with
      | none => simp
      | some v =>
        rw [hp] at hbad
        have : v ≤ 0 := of_decide_eq_true hbad
        simp [this]
    case SET_HEIGHT =>
      simp only [invalid_reply] at hbad
      simp only [profile_step, set_height]
      cases hp : parse_float text with
      | none => simp
      | some v =>
        rw [hp] at hbad
        have : v ≤ 0 := of_decide_eq_true hbad
        simp [this]
    case SET_AGE =>
      simp only [invalid_reply] at hbad
      simp only [profile_step, set_age]
      cases hp : parse_float text with
      | none => simp
      | some v =>
        rw [hp] at hbad
        have : v ≤ 0 := of_decide_eq_true hbad
        simp [this]
    case SET_ACTIVITY =>
      simp only [invalid_reply] at hbad
      simp only [profile_step, set_activity]
      cases hp : parse_float text with
      | none => simp
      | some v =>
        rw [hp] at hbad
        have : v < 0 := of_decide_eq_true hbad
        simp [this]
    case SET_CITY =>
      simp only [invalid_reply] at hbad
      have hempty : pyStrip text = "" := by
        exact eq_of_beq hbad
      simp [profile_step, set_city, hempty]
    case SET_CAL_GOAL =>
      obtain ⟨hw, hh, ha, hact, hc⟩ := hcomplete rfl
      obtain ⟨w, hw⟩ := Option.isSome_iff_exists.mp hw
      obtain ⟨h, hh⟩ := Option.isSome_iff_exists.mp hh
      obtain ⟨a, ha⟩ := Option.isSome_iff_exists.mp ha
      obtain ⟨act, hact⟩ := Option.isSome_iff_exists.mp hact
      obtain ⟨c, hc⟩ := Option.isSome_iff_exists.mp hc
      simp only [invalid_reply] at hbad
      simp only [profile_step, set_cal_goal, hw, hh, ha, hact, hc]
      cases hp : parse_float text with
      | none => simp
      | some v =>
        rw [hp] at hbad
        have : v < 0 := of_decide_eq_true hbad
        simp [this]
  · simp +decide [parse_float, pyFloat, pyFloatUnsigned, pyDigits, pyDigitsFrom]
    norm_num

/-- Closed instance of the C6 theorem: the unparsable reply "abc" in the
weight state re-prompts and changes nothing. -/
theorem invalid_input_keeps_state_witness :
    profile_step ProfileState.SET_WEIGHT Scratch.emptyData init_record "abc" none =
      some (some ProfileState.SET_WEIGHT, Scratch.emptyData, init_record) :=
  invalid_input_keeps_state.1 ProfileState.SET_WEIGHT Scratch.emptyData init_record
    "abc" none (fun hc => ProfileState.noConfusion hc) (by decide)

/-- C7: when the user has a profile and the food lookup yields NotFound, the
food dialogue does not start and nothing on the record changes: logged
calories are untouched and a previously unset pending food stays unset. -/
theorem food_not_found_no_mutation :
    ∀ (r : UserRecord) (args : List String) (response : Option (List Product)),
      r.weight.isSome = true →
      search_food_kcal (pyStrip (joinSpace args)) response = none →
      log_food r args response = (r, false) ∧
      (log_food r args response).1.logged_calories = r.logged_calories ∧
      (r.pending_food = none → (log_food r args response).1.pending_food = none) := by
  intro r args response hw hnf
  obtain ⟨w, hw⟩ := Option.isSome_iff_exists.mp hw
  have hmain : log_food r args response = (r, false) := by
    cases args with
    | nil => simp [log_food, hw]
    | cons a rest => simp [log_food, hw, hnf]
  refine ⟨hmain, ?_, ?_⟩
  · rw [hmain]
  · intro hpend
    rw [hmain]
    exact hpend

/-- Closed instance of the C7 theorem: a failed lookup (request exception,
`none` response) for "pizza" leaves a fresh profiled record untouched. -/
theorem food_not_found_no_mutation_witness :
    log_food profiledRecord ["pizza"] none = (profiledRecord, false) :=
  (food_not_found_no_mutation profiledRecord ["pizza"] none rfl rfl).1

/-- C9: with an established profile, checkProgress reports exactly
max(calorieGoal − (logged − burned), 0) remaining calories and
max(waterGoal − loggedWater, 0) remaining water, clamped at zero, and leaves
the state untouched, so a second call yields the same report. -/
theorem check_progress_pure_report :
    ∀ (s : BotState) (wg cg : ℚ),
      s.record.weight.isSome = true →
      s.record.water_goal = some wg →
      s.record.calorie_goal = some cg →
      check_progress s.record = Outcome.ok (some
        { logged_water := s.record.logged_water
        , water_goal := wg
        , water_left := max (wg - s.record.logged_water) 0
        , logged_calories := s.record.logged_calories
        , calorie_goal := cg
        , burned := s.record.burned_calories
        , net := s.record.logged_calories - s.record.burned_calories
        , remaining :=
            max (cg - (s.record.logged_calories - s.record.burned_calories)) 0 }) ∧
      step s Event.CheckProgressCmd = some s := by
  intro s wg cg hw hwg hcg
  obtain ⟨w, hw⟩ := Option.isSome_iff_exists.mp hw
  have hreport : check_progress s.record = Outcome.ok (some
      { logged_water := s.record.logged_water
      , water_goal := wg
      , water_left := max (wg - s.record.logged_water) 0
      , logged_calories := s.record.logged_calories
      , calorie_goal := cg
      , burned := s.record.burned_calories
      , net := s.record.logged_calories - s.record.burned_calories
      , remaining :=
          max (cg - (s.record.logged_calories - s.record.burned_calories)) 0 }) := by
    simp [check_progress, hw, hwg, hcg]
  refine ⟨hreport, ?_⟩
  simp [step, hreport]

/-- Closed instance of the C9 theorem at the fresh profiled state. -/
theorem check_progress_pure_report_witness :
    check_progress profiledState.record = Outcome.ok (some
      { logged_water := profiledState.record.logged_water
      , water_goal := 2100
      , water_left := max (2100 - profiledState.record.logged_water) 0
      , logged_calories := profiledState.record.logged_calories
      , calorie_goal := 2000
      , burned := profiledState.record.burned_calories
      , net := profiledState.record.logged_calories -
          profiledState.record.burned_calories
      , remaining :=
          max (2000 - (profiledState.record.logged_calories -
            profiledState.record.burned_calories)) 0 }) ∧
    step profiledState Event.CheckProgressCmd = some profiledState :=
  check_progress_pure_report profiledState 2100 2000 rfl rfl rfl

/-- C3 counterexample: cancelling the active food dialogue ends it, but the
record's pending food is still set afterwards — `cancel` only clears the
scratch dict, never the record. -/
theorem cancel_keeps_pending_food_cex :
    ((step pendingFoodState Event.CancelCmd).map fun s => s.food_dialog)
      = some false ∧
    ((step pendingFoodState Event.CancelCmd).map fun s => s.record.pending_food)
      = some (some { name := "Bread", kcal_per_100g := 250 }) := by
  constructor <;> rfl

/-- C3 amended: cancelling an active food dialogue ends the dialogue and
clears the dialogue scratch data but leaves every field of the user record —
pending food included — unchanged; only the successful grams step clears a
stored pending food. -/
theorem cancel_leaves_record_unchanged :
    ∀ s : BotState, s.profile_dialog = none → s.food_dialog = true →
      step s Event.CancelCmd =
        some { s with food_dialog := false, scratch := Scratch.emptyData } ∧
      ((step s Event.CancelCmd).map fun x => x.record.pending_food) =
        some s.record.pending_food := by
  intro s hprof hfood
  have hmain : step s Event.CancelCmd =
      some { s with food_dialog := false, scratch := Scratch.emptyData } := by
    simp [step, hprof, hfood]
  exact ⟨hmain, by rw [hmain]; rfl⟩

/-- Closed instance of the C3 amended theorem at the pending-food state. -/
theorem cancel_leaves_record_unchanged_witness :
    step pendingFoodState Event.CancelCmd =
      some { pendingFoodState with
        food_dialog := false, scratch := Scratch.emptyData } ∧
    ((step pendingFoodState Event.CancelCmd).map fun x => x.record.pending_food) =
      some pendingFoodState.record.pending_food :=
  cancel_leaves_record_unchanged pendingFoodState rfl rfl

/-- C4 counterexample: the lookup step stores a pending food whose
`kcal_per_100g` is 0 — a resolved non-positive energy density is stored, the
code never checks positivity. -/
theorem lookup_stores_zero_kcal_cex :
    log_food profiledRecord ["snack"] (some [zeroKcalProduct]) =
      ({ profiledRecord with
          pending_food := some { name := "Airy snack", kcal_per_100g := 0 } },
        true) := by
  rfl

/-- C4 amended: the lookup step stores exactly whatever candidate the food
query resolves, whatever the sign of its energy density; only an unresolvable
energy value (or a failed query or empty product list) blocks storage. -/
theorem lookup_stores_any_resolved_kcal :
    ∀ (r : UserRecord) (args : List String) (response : Option (List Product))
      (pf : PendingFood),
      r.weight.isSome = true → args ≠ [] →
      search_food_kcal (pyStrip (joinSpace args)) response = some pf →
      log_food r args response = ({ r with pending_food := some pf }, true) := by
  intro r args response pf hw hargs hfound
  obtain ⟨w, hw⟩ := Option.isSome_iff_exists.mp hw
  cases args with
  | nil => exact absurd rfl hargs
  | cons a rest => simp [log_food, hw, hfound]

/-- Closed instance of the C4 amended theorem at the zero-kcal lookup. -/
theorem lookup_stores_any_resolved_kcal_witness :
    log_food profiledRecord ["snack"] (some [zeroKcalProduct]) =
      ({ profiledRecord with
          pending_food := some { name := "Airy snack", kcal_per_100g := 0 } },
        true) :=
  lookup_stores_any_resolved_kcal profiledRecord ["snack"] (some [zeroKcalProduct])
    { name := "Airy snack", kcal_per_100g := 0 } rfl (by decide) rfl

lemma log_water_cases {r r' : UserRecord} {args : List String}
    (h : log_water r args = some r') :
    r' = r ∨
    ∃ a rest amt, args = a :: rest ∧ parse_float a = some amt ∧ 0 < amt ∧
      r.weight.isSome = true ∧ r.water_goal.isSome = true ∧
      r' = { r with logged_water := r.logged_water + amt } := by
  simp only [log_water] at h
  cases hw : r.weight with
  | none =>
    simp only [hw] at h
    exact Or.inl (Option.some.inj h).symm
  | some w =>
    simp only [hw] at h
    cases args with
    | nil => exact Or.inl (Option.some.inj h).symm
    | cons a rest =>
      cases hp : parse_float a with
      | none =>
        simp only [hp] at h
        exact Or.inl (Option.some.inj h).symm
      | some amt =>
        simp only [hp] at h
        by_cases hle : amt ≤ 0
        · simp only [if_pos hle] at h
          exact Or.inl (Option.some.inj h).symm
        · simp only [if_neg hle] at h
          cases hg : r.water_goal with
          | none =>
            simp only [hg] at h
            exact Option.noConfusion h
          | some wg =>
            simp only [hg] at h
            refine Or.inr ⟨a, rest, amt, rfl, hp, not_le.mp hle, rfl, rfl, ?_⟩
            rw [(Option.some.inj h).symm]

lemma log_workout_cases {r r' : UserRecord} {args : List String}
    (h : log_workout r args = r') :
    r' = r ∨
    ∃ w ty mins rest m, args = ty :: mins :: rest ∧ r.weight = some w ∧
      parse_float mins = some m ∧ 0 < m ∧
      r' = { r with burned_calories :=
              r.burned_calories + calc_workout_burned ty m w } := by
  simp only [log_workout] at h
  cases hw : r.weight with
  | none =>
    simp only [hw] at h
    exact Or.inl h.symm
  | some w =>
    simp only [hw] at h
    cases args with
    | nil => exact Or.inl h.symm
    | cons ty rest0 =>
      cases rest0 with
      | nil =>
        simp only at h
        exact Or.inl h.symm
      | cons mins rest =>
        cases hp : parse_float mins with
        | none =>
          simp only [hp] at h
          exact Or.inl h.symm
        | some m =>
          simp only [hp] at h
          by_cases hle : m ≤ 0
          · simp only [if_pos hle] at h
            exact Or.inl h.symm
          · simp only [if_neg hle] at h
            refine Or.inr ⟨w, ty, mins, rest, m, rfl, rfl, hp, not_le.mp hle, ?_⟩
            rw [← h]

lemma log_food_grams_cases {r : UserRecord} {text : String}
    {p : UserRecord × Bool} (h : log_food_grams r text = p) :
    p = (r, false) ∨ p = (r, true) ∨
    ∃ pf g, r.pending_food = some pf ∧ parse_float text = some g ∧ 0 < g ∧
      p = ({ r with
              logged_calories := r.logged_calories + pf.kcal_per_100g * g / 100
            , pending_food := none }, false) := by
  simp only [log_food_grams] at h
  cases hpend : r.pending_food with
  | none =>
    simp only [hpend] at h
    exact Or.inl h.symm
  | some pf =>
    simp only [hpend] at h
    cases hp : parse_float text with
    | none =>
      simp only [hp] at h
      exact Or.inr (Or.inl h.symm)
    | some g =>
      simp only [hp] at h
      by_cases hle : g ≤ 0
      · simp only [if_pos hle] at h
        exact Or.inr (Or.inl h.symm)
      · simp only [if_neg hle] at h
        refine Or.inr (Or.inr ⟨pf, g, rfl, rfl, not_le.mp hle, ?_⟩)
        rw [← h]

lemma log_food_cases {r : UserRecord} {args : List String}
    {response : Option (List Product)} {p : UserRecord × Bool}
    (h : log_food r args response = p) :
    p.1 = r ∨ ∃ pf, p.1 = { r with pending_food := some pf } := by
  simp only [log_food] at h
  cases hw : r.weight with
  | none =>
    simp only [hw] at h
    rw [← h]
    exact Or.inl rfl
  | some w =>
    simp only [hw] at h
    cases args with
    | nil =>
      rw [← h]
      exact Or.inl rfl
    | cons a rest =>
      cases hs : search_food_kcal (pyStrip (joinSpace (a :: rest))) response with
      | none =>
        simp only [hs] at h
        rw [← h]
        exact Or.inl rfl
      | some pf =>
        simp only [hs] at h
        rw [← h]
        exact Or.inr ⟨pf, rfl⟩

lemma profile_step_record_cases {st : ProfileState} {sc sc' : Scratch}
    {r r' : UserRecord} {text : String} {temp : Option ℚ}
    {st' : Option ProfileState}
    (h : profile_step st sc r text temp = some (st', sc', r')) :
    r' = r ∨
    ∃ w hh a act c v, sc.weight = some w ∧ sc.height = some hh ∧
      sc.age = some a ∧ sc.activity = some act ∧ sc.city = some c ∧
      r' = { r with
              weight := some w, height := some hh, age := some a
            , activity := some act, city := some c
            , water_goal := some (calc_water_goal w act temp)
            , calorie_goal := some v } := by
  cases st
  case SET_WEIGHT =>
    rcases hs : set_weight sc text with ⟨st1, sc1⟩
    simp only [profile_step, hs, Option.some.injEq, Prod.mk.injEq] at h
    exact Or.inl h.2.2.symm
  case SET_HEIGHT =>
    rcases hs : set_height sc text with ⟨st1, sc1⟩
    simp only [profile_step, hs, Option.some.injEq, Prod.mk.injEq] at h
    exact Or.inl h.2.2.symm
  case SET_AGE =>
    rcases hs : set_age sc text with ⟨st1, sc1⟩
    simp only [profile_step, hs, Option.some.injEq, Prod.mk.injEq] at h
    exact Or.inl h.2.2.symm
  case SET_ACTIVITY =>
    rcases hs : set_activity sc text with ⟨st1, sc1⟩
    simp only [profile_step, hs, Option.some.injEq, Prod.mk.injEq] at h
    exact Or.inl h.2.2.symm
  case SET_CITY =>
    rcases hs : set_city sc text with ⟨st1, sc1⟩
    simp only [profile_step, hs, Option.some.injEq, Prod.mk.injEq] at h
    exact Or.inl h.2.2.symm
  case SET_CAL_GOAL =>
    simp only [profile_step, set_cal_goal] at h
    cases hsw : sc.weight with
    | none =>
      simp only [hsw] at h
      exact Option.noConfusion h
    | some w =>
    cases hsh : sc.height with
    | none =>
      simp only [hsw, hsh] at h
      exact Option.noConfusion h
    | some hh =>
    cases hsa : sc.age with
    | none =>
      simp only [hsw, hsh, hsa] at h
      exact Option.noConfusion h
    | some a =>
    cases hsact : sc.activity with
    | none =>
      simp only [hsw, hsh, hsa, hsact] at h
      exact Option.noConfusion h
    | some act =>
    cases hsc : sc.city with
    | none =>
      simp only [hsw, hsh, hsa, hsact, hsc] at h
      exact Option.noConfusion h
    | some c =>
    simp only [hsw, hsh, hsa, hsact, hsc] at h
    cases hp : parse_float text with
    | none =>
      simp only [hp, Option.some.injEq, Prod.mk.injEq] at h
      exact Or.inl h.2.2.symm
    | some v =>
      simp only [hp] at h
      by_cases hneg : v < 0
      · simp only [if_pos hneg, Option.some.injEq, Prod.mk.injEq] at h
        exact Or.inl h.2.2.symm
      · simp only [if_neg hneg, Option.some.injEq, Prod.mk.injEq] at h
        refine Or.inr ⟨w, hh, a, act, c,
          (if v > 0 then v else calc_calorie_goal w hh a act),
          rfl, rfl, rfl, rfl, rfl, ?_⟩
        exact h.2.2.symm

lemma profile_step_next_scratch {st : ProfileState} {sc sc' : Scratch}
    {r r' : UserRecord} {text : String} {temp : Option ℚ}
    {st' : Option ProfileState}
    (h : profile_step st sc r text temp = some (st', sc', r'))
    (hsw : ∀ w, sc.weight = some w → 0 < w)
    (hdlg : dialogScratchInv (some st) sc) :
    (∀ w, sc'.weight = some w → 0 < w) ∧ dialogScratchInv st' sc' := by
  cases st
  case SET_WEIGHT =>
    simp only [profile_step, set_weight] at h
    cases hp : parse_float text with
    | none =>
      simp only [hp, Option.some.injEq, Prod.mk.injEq] at h
      obtain ⟨h1, h2, h3⟩ := h
      subst h1; subst h2
      exact ⟨hsw, trivial⟩
    | some v =>
      by_cases hle : v ≤ 0
      · simp only [hp, if_pos hle, Option.some.injEq, Prod.mk.injEq] at h
        obtain ⟨h1, h2, h3⟩ := h
        subst h1; subst h2
        exact ⟨hsw, trivial⟩
      · simp only [hp, if_neg hle, Option.some.injEq, Prod.mk.injEq] at h
        obtain ⟨h1, h2, h3⟩ := h
        subst h1; subst h2
        refine ⟨?_, rfl⟩
        intro w hw
        rw [Option.some.inj hw.symm]
        exact not_le.mp hle
  case SET_HEIGHT =>
    simp only [profile_step, set_height] at h
    cases hp : parse_float text with
    | none =>
      simp only [hp, Option.some.injEq, Prod.mk.injEq] at h
      obtain ⟨h1, h2, h3⟩ := h
      subst h1; subst h2
      exact ⟨hsw, hdlg⟩
    | some v =>
      by_cases hle : v ≤ 0
      · simp only [hp, if_pos hle, Option.some.injEq, Prod.mk.injEq] at h
        obtain ⟨h1, h2, h3⟩ := h
        subst h1; subst h2
        exact ⟨hsw, hdlg⟩
      · simp only [hp, if_neg hle, Option.some.injEq, Prod.mk.injEq] at h
        obtain ⟨h1, h2, h3⟩ := h
        subst h1; subst h2
        exact ⟨hsw, hdlg, rfl⟩
  case SET_AGE =>
    simp only [profile_step, set_age] at h
    cases hp : parse_float text with
    | none =>
      simp only [hp, Option.some.injEq, Prod.mk.injEq] at h
      obtain ⟨h1, h2, h3⟩ := h
      subst h1; subst h2
      exact ⟨hsw, hdlg⟩
    | some v =>
      by_cases hle : v ≤ 0
      · simp only [hp, if_pos hle, Option.some.injEq, Prod.mk.injEq] at h
        obtain ⟨h1, h2, h3⟩ := h
        subst h1; subst h2
        exact ⟨hsw, hdlg⟩
      · simp only [hp, if_neg hle, Option.some.injEq, Prod.mk.injEq] at h
        obtain ⟨h1, h2, h3⟩ := h
        subst h1; subst h2
        exact ⟨hsw, hdlg.1, hdlg.2, rfl⟩
  case SET_ACTIVITY =>
    simp only [profile_step, set_activity] at h
    cases hp : parse_float text with
    | none =>
      simp only [hp, Option.some.injEq, Prod.mk.injEq] at h
      obtain ⟨h1, h2, h3⟩ := h
      subst h1; subst h2
      exact ⟨hsw, hdlg⟩
    | some v =>
      by_cases hle : v < 0
      · simp only [hp, if_pos hle, Option.some.injEq, Prod.mk.injEq] at h
        obtain ⟨h1, h2, h3⟩ := h
        subst h1; subst h2
        exact ⟨hsw, hdlg⟩
      · simp only [hp, if_neg hle, Option.some.injEq, Prod.mk.injEq] at h
        obtain ⟨h1, h2, h3⟩ := h
        subst h1; subst h2
        exact ⟨hsw, hdlg.1, hdlg.2.1, hdlg.2.2, rfl⟩
  case SET_CITY =>
    simp only [profile_step, set_city] at h
    by_cases hcity : pyStrip text = ""
    · simp only [hcity, if_pos rfl, Option.some.injEq, Prod.mk.injEq] at h
      obtain ⟨h1, h2, h3⟩ := h
      subst h1; subst h2
      exact ⟨hsw, hdlg⟩
    · simp only [if_neg hcity, Option.some.injEq, Prod.mk.injEq] at h
      obtain ⟨h1, h2, h3⟩ := h
      subst h1; subst h2
      exact ⟨hsw, hdlg.1, hdlg.2.1, hdlg.2.2.1, hdlg.2.2.2, rfl⟩
  case SET_CAL_GOAL =>
    simp only [profile_step, set_cal_goal] at h
    cases hsw0 : sc.weight with
    | none =>
      simp only [hsw0] at h
      exact Option.noConfusion h
    | some w =>
    cases hsh : sc.height with
    | none =>
      simp only [hsw0, hsh] at h
      exact Option.noConfusion h
    | some hh =>
    cases hsa : sc.age with
    | none =>
      simp only [hsw0, hsh, hsa] at h
      exact Option.noConfusion h
    | some a =>
    cases hsact : sc.activity with
    | none =>
      simp only [hsw0, hsh, hsa, hsact] at h
      exact Option.noConfusion h
    | some act =>
    cases hsc : sc.city with
    | none =>
      simp only [hsw0, hsh, hsa, hsact, hsc] at h
      exact Option.noConfusion h
    | some c =>
    simp only [hsw0, hsh, hsa, hsact, hsc] at h
    cases hp : parse_float text with
    | none =>
      simp only [hp, Option.some.injEq, Prod.mk.injEq] at h
      obtain ⟨h1, h2, h3⟩ := h
      subst h1; subst h2
      exact ⟨hsw, hdlg⟩
    | some v =>
      by_cases hneg : v < 0
      · simp only [hp, if_pos hneg, Option.some.injEq, Prod.mk.injEq] at h
        obtain ⟨h1, h2, h3⟩ := h
        subst h1; subst h2
        exact ⟨hsw, hdlg⟩
      · simp only [hp, if_neg hneg, Option.some.injEq, Prod.mk.injEq] at h
        obtain ⟨h1, h2, h3⟩ := h
        subst h1; subst h2
        refine ⟨?_, trivial⟩
        intro w hw
        exact Option.noConfusion hw

lemma inv_step {s s' : BotState} {e : Event}
    (hI : BotInv s) (h : step s e = some s') : BotInv s' := by
  cases e with
  | SetProfileCmd =>
    simp only [step] at h
    cases hd : s.profile_dialog with
    | some st =>
      simp only [hd] at h
      cases Option.some.inj h
      exact hI
    | none =>
      simp only [hd] at h
      cases Option.some.inj h
      exact ⟨hI.goals_iff, hI.wpos, hI.swpos, trivial⟩
  | TextMsg text temp =>
    simp only [step] at h
    cases hd : s.profile_dialog with
    | some st =>
      simp only [hd] at h
      cases hps : profile_step st s.scratch s.record text temp with
      | none =>
        simp only [hps] at h
        exact Option.noConfusion h
      | some trip =>
        obtain ⟨st1, sc1, r1⟩ := trip
        simp only [hps] at h
        cases Option.some.inj h
        have hdlg0 : dialogScratchInv (some st) s.scratch := by
          rw [← hd]; exact hI.dlg
        have hsc := profile_step_next_scratch hps hI.swpos hdlg0
        rcases profile_step_record_cases hps with
          hrr | ⟨w, hh, a, act, c, v, hw, hhh, hha, hact, hc, hcommit⟩
        · subst hrr
          exact ⟨hI.goals_iff, hI.wpos, hsc.1, hsc.2⟩
        · subst hcommit
          refine ⟨by simp, ?_, hsc.1, hsc.2⟩
          intro w0 hw0
          rw [← Option.some.inj hw0]
          exact hI.swpos w hw
    | none =>
      simp only [hd] at h
      by_cases hf : s.food_dialog = true
      · rcases hlg : log_food_grams s.record text with ⟨rec2, cont⟩
        simp only [hf, if_true, hlg] at h
        cases Option.some.inj h
        have hdlg1 : dialogScratchInv s.profile_dialog Scratch.emptyData ∨ True :=
          Or.inr trivial
        rcases log_food_grams_cases hlg with h1 | h1 | ⟨pf, g, hpend, hp, hg, h1⟩
        · obtain ⟨hrec, hcont⟩ := Prod.mk.injEq .. |>.mp h1
          subst hrec
          exact ⟨hI.goals_iff, hI.wpos, hI.swpos, trivial⟩
        · obtain ⟨hrec, hcont⟩ := Prod.mk.injEq .. |>.mp h1
          subst hrec
          exact ⟨hI.goals_iff, hI.wpos, hI.swpos, trivial⟩
        · obtain ⟨hrec, hcont⟩ := Prod.mk.injEq .. |>.mp h1
          subst hrec
          exact ⟨hI.goals_iff, hI.wpos, hI.swpos, trivial⟩
      · simp only [hf, if_false] at h
        cases Option.some.inj h
        exact hI
  | LogWaterCmd args =>
    simp only [step] at h
    cases hlw : log_water s.record args with
    | none =>
      simp only [hlw] at h
      exact Option.noConfusion h
    | some r2 =>
      simp only [hlw, Option.map_some'] at h
      cases Option.some.inj h
      rcases log_water_cases hlw with hrr | ⟨a, rest, amt, _, _, _, _, _, hr2⟩
      · subst hrr
        exact ⟨hI.goals_iff, hI.wpos, hI.swpos, hI.dlg⟩
      · subst hr2
        exact ⟨hI.goals_iff, hI.wpos, hI.swpos, hI.dlg⟩
  | LogFoodCmd args response =>
    simp only [step] at h
    by_cases hf : s.food_dialog = true
    · simp only [hf, if_true] at h
      cases Option.some.inj h
      exact hI
    · rcases hlf : log_food s.record args response with ⟨rec2, entered⟩
      simp only [hf, if_false, hlf] at h
      cases Option.some.inj h
      rcases log_food_cases hlf with h1 | ⟨pf, h1⟩
      · dsimp only at h1
        subst h1
        exact ⟨hI.goals_iff, hI.wpos, hI.swpos, hI.dlg⟩
      · dsimp only at h1
        subst h1
        exact ⟨hI.goals_iff, hI.wpos, hI.swpos, hI.dlg⟩
  | LogWorkoutCmd args =>
    simp only [step] at h
    cases Option.some.inj h
    rcases log_workout_cases (rfl : log_workout s.record args = _) with
      hrr | ⟨w, ty, mins, rest, m, hargs, hw, hp, hm, heq⟩
    · rw [hrr]
      exact ⟨hI.goals_iff, hI.wpos, hI.swpos, hI.dlg⟩
    · rw [heq]
      exact ⟨hI.goals_iff, hI.wpos, hI.swpos, hI.dlg⟩
  | CheckProgressCmd =>
    simp only [step] at h
    cases hcp : check_progress s.record with
    | err =>
      simp only [hcp] at h
      exact Option.noConfusion h
    | ok rep =>
      simp only [hcp] at h
      cases Option.some.inj h
      exact hI
  | CancelCmd =>
    simp only [step] at h
    cases hd : s.profile_dialog with
    | some st =>
      simp only [hd] at h
      cases Option.some.inj h
      exact ⟨hI.goals_iff, hI.wpos, fun w hw => Option.noConfusion hw, trivial⟩
    | none =>
      simp only [hd] at h
      by_cases hf : s.food_dialog = true
      · simp only [hf, if_true] at h
        cases Option.some.inj h
        exact ⟨hI.goals_iff, hI.wpos, fun w hw => Option.noConfusion hw, trivial⟩
      · simp only [hf, if_false] at h
        cases Option.some.inj h
        exact hI

lemma inv_init : BotInv init_state := by
  refine ⟨by simp [init_state, init_record], ?_, ?_, trivial⟩
  · intro w hw
    exact Option.noConfusion hw
  · intro w hw
    exact Option.noConfusion hw

lemma inv_reachable {s : BotState} (h : Reachable s) : BotInv s := by
  induction h with
  | init => exact inv_init
  | next _ hstep ih => exact inv_step ih hstep

lemma log_water_none_cases {r : UserRecord} {args : List String}
    (h : log_water r args = none) :
    r.weight.isSome = true ∧ r.water_goal = none := by
  simp only [log_water] at h
  cases hw : r.weight with
  | none =>
    simp only [hw] at h
    exact Option.noConfusion h
  | some w =>
    simp only [hw] at h
    cases args with
    | nil => exact Option.noConfusion h
    | cons a rest =>
      cases hp : parse_float a with
      | none =>
        simp only [hp] at h
        exact Option.noConfusion h
      | some amt =>
        simp only [hp] at h
        by_cases hle : amt ≤ 0
        · simp only [if_pos hle] at h
          exact Option.noConfusion h
        · simp only [if_neg hle] at h
          cases hg : r.water_goal with
          | none => exact ⟨rfl, rfl⟩
          | some wg =>
            simp only [hg] at h
            exact Option.noConfusion h

lemma check_progress_err_cases {r : UserRecord}
    (h : check_progress r = Outcome.err) :
    r.weight.isSome = true ∧ (r.water_goal = none ∨ r.calorie_goal = none) := by
  simp only [check_progress] at h
  cases hw : r.weight with
  | none =>
    simp only [hw] at h
    exact Outcome.noConfusion h
  | some w =>
    simp only [hw] at h
    cases hg : r.water_goal with
    | none => exact ⟨rfl, Or.inl rfl⟩
    | some wg =>
      simp only [hg] at h
      cases hc : r.calorie_goal with
      | none => exact ⟨rfl, Or.inr rfl⟩
      | some cg =>
        simp only [hc] at h
        exact Outcome.noConfusion h

/-- C10: in every reachable state, the record's weight is set exactly when
both goals are set — the profile commit is the only writer of the three and
writes them together — and consequently neither the log-water handler nor the
progress report ever hits a `None` goal in its arithmetic (their step never
raises). -/
theorem weight_and_goals_set_together :
    ∀ s : BotState, Reachable s →
      (s.record.weight.isSome = true ↔
        (s.record.water_goal.isSome = true ∧
          s.record.calorie_goal.isSome = true)) ∧
      (∀ args, (step s (Event.LogWaterCmd args)).isSome = true) ∧
      (step s Event.CheckProgressCmd).isSome = true := by
  intro s hreach
  have hI := inv_reachable hreach
  refine ⟨hI.goals_iff, ?_, ?_⟩
  · intro args
    simp only [step]
    cases hlw : log_water s.record args with
    | none =>
      obtain ⟨hw, hg⟩ := log_water_none_cases hlw
      have := (hI.goals_iff.mp hw).1
      rw [hg] at this
      exact absurd this (by simp)
    | some r2 => rfl
  · simp only [step]
    cases hcp : check_progress s.record with
    | err =>
      obtain ⟨hw, hg⟩ := check_progress_err_cases hcp
      obtain ⟨h1, h2⟩ := hI.goals_iff.mp hw
      cases hg with
      | inl hg => rw [hg] at h1; exact absurd h1 (by simp)
      | inr hg => rw [hg] at h2; exact absurd h2 (by simp)
    | ok rep => rfl

/-- Closed instance of the C10 theorem at the initial state. -/
theorem weight_and_goals_set_together_witness :
    (init_state.record.weight.isSome = true ↔
      (init_state.record.water_goal.isSome = true ∧
        init_state.record.calorie_goal.isSome = true)) ∧
    (∀ args, (step init_state (Event.LogWaterCmd args)).isSome = true) ∧
    (step init_state Event.CheckProgressCmd).isSome = true :=
  weight_and_goals_set_together init_state Reachable.init

lemma q1_step : step init_state Event.SetProfileCmd = some q1 := by rfl

lemma q2_step : step q1 (Event.TextMsg "70" none) = some q2 := by
  simp +decide [step, profile_step, set_weight, parse_float, pyFloat, pyFloatUnsigned,
    pyDigits, pyDigitsFrom, q1, q2, init_state, Scratch.emptyData]

lemma q3_step : step q2 (Event.TextMsg "175" none) = some q3 := by
  simp +decide [step, profile_step, set_height, parse_float, pyFloat, pyFloatUnsigned,
    pyDigits, pyDigitsFrom, q1, q2, q3, init_state, Scratch.emptyData]

lemma q4_step : step q3 (Event.TextMsg "30" none) = some q4 := by
  simp +decide [step, profile_step, set_age, parse_float, pyFloat, pyFloatUnsigned,
    pyDigits, pyDigitsFrom, q1, q2, q3, q4, init_state, Scratch.emptyData]

lemma q5_step : step q4 (Event.TextMsg "45" none) = some q5 := by
  simp +decide [step, profile_step, set_activity, parse_float, pyFloat, pyFloatUnsigned,
    pyDigits, pyDigitsFrom, q1, q2, q3, q4, q5, init_state, Scratch.emptyData]

lemma q6_step : step q5 (Event.TextMsg "Moscow" none) = some q6 := by
  simp +decide [step, profile_step, set_city, pyStrip, q1, q2, q3, q4, q5, q6,
    init_state, Scratch.emptyData]

lemma q7_step : step q6 (Event.TextMsg "0" none) = some q7 := by
  simp +decide [step, profile_step, set_cal_goal, parse_float, pyFloat, pyFloatUnsigned,
    pyDigits, pyDigitsFrom, q1, q2, q3, q4, q5, q6, q7, init_state, Scratch.emptyData,
    calc_water_goal, calc_calorie_goal, floordiv, committedRecord, init_record]
  norm_num

lemma q8_step : step q7 (Event.LogFoodCmd ["weird"] (some [negKcalProduct])) = some q8 := by
  simp +decide [step, log_food, search_food_kcal, pyStrip, joinSpace, q7, q8,
    negKcalProduct, committedRecord, init_record, Scratch.emptyData]

lemma q9_step : step q8 (Event.TextMsg "100" none) = some q9 := by
  simp +decide [step, log_food_grams, parse_float, pyFloat, pyFloatUnsigned,
    pyDigits, pyDigitsFrom, q7, q8, q9, committedRecord, init_record, Scratch.emptyData]
  norm_num

lemma q8_reachable : Reachable q8 :=
  Reachable.next
    (Reachable.next
      (Reachable.next
        (Reachable.next
          (Reachable.next
            (Reachable.next
              (Reachable.next (Reachable.next Reachable.init q1_step) q2_step)
              q3_step)
            q4_step)
          q5_step)
        q6_step)
      q7_step)
    q8_step

/-- C5 counterexample: along a reachable trace, the food-grams step applied to
a stored candidate with negative energy density strictly decreases
`logged_calories` from 0 to −100 — the accumulator is not monotonically
non-decreasing, because the lookup step never checks the sign of the density
it stores. -/
theorem negative_kcal_decreases_calories_cex :
    Reachable q8 ∧
    step q8 (Event.TextMsg "100" none) = some q9 ∧
    q8.record.logged_calories = 0 ∧
    q9.record.logged_calories = -100 := by
  refine ⟨q8_reachable, q9_step, rfl, rfl⟩

lemma calc_workout_burned_nonneg (ty : String) {m w : ℚ}
    (hm : 0 ≤ m) (hw : 0 ≤ w) : 0 ≤ calc_workout_burned ty m w := by
  have hrate : (0 : ℚ) ≤ (per_min_table.lookup (lowerStr ty)).getD 5 := by
    rw [per_min_lookup_eq]
    split_ifs <;> norm_num
  have h70 : (0 : ℚ) ≤ w / 70 := by positivity
  simp only [calc_workout_burned]
  exact mul_nonneg (mul_nonneg hm hrate) h70

/-- C5 amended: across every reachable step, `logged_water` and
`burned_calories` never decrease; `logged_calories` never decreases provided
the stored pending food (if any) has non-negative energy density — with a
negative stored density the food-grams step can decrease it. After a
successful log-water the water accumulator grows by exactly the parsed
amount, after a successful log-workout the burned accumulator grows by
exactly minutes × rate × weight / 70, and after a successful food-grams step
the calorie accumulator changes by exactly kcalPer100g × grams / 100 and the
pending food is cleared. -/
theorem accumulators_monotone_amended :
    (∀ (s s' : BotState) (e : Event), Reachable s → step s e = some s' →
      s.record.logged_water ≤ s'.record.logged_water ∧
      s.record.burned_calories ≤ s'.record.burned_calories ∧
      ((∀ pf, s.record.pending_food = some pf → 0 ≤ pf.kcal_per_100g) →
        s.record.logged_calories ≤ s'.record.logged_calories)) ∧
    (∀ (s s' : BotState) (a : String) (rest : List String) (amt w : ℚ),
      step s (Event.LogWaterCmd (a :: rest)) = some s' →
      s.record.weight = some w → parse_float a = some amt → 0 < amt →
      s'.record.logged_water = s.record.logged_water + amt) ∧
    (∀ (s s' : BotState) (ty mins : String) (rest : List String) (m w : ℚ),
      step s (Event.LogWorkoutCmd (ty :: mins :: rest)) = some s' →
      s.record.weight = some w → parse_float mins = some m → 0 < m →
      s'.record.burned_calories =
        s.record.burned_calories + calc_workout_burned ty m w) ∧
    (∀ (s s' : BotState) (text : String) (temp : Option ℚ) (pf : PendingFood)
        (g : ℚ),
      step s (Event.TextMsg text temp) = some s' →
      s.profile_dialog = none → s.food_dialog = true →
      s.record.pending_food = some pf → parse_float text = some g → 0 < g →
      s'.record.logged_calories =
        s.record.logged_calories + pf.kcal_per_100g * g / 100 ∧
      s'.record.pending_food = none) := by
  refine ⟨?_, ?_, ?_, ?_⟩
  · intro s s' e hreach h
    have hI := inv_reachable hreach
    cases e with
    | SetProfileCmd =>
      simp only [step] at h
      cases hd : s.profile_dialog with
      | some st =>
        simp only [hd] at h
        cases Option.some.inj h
        exact ⟨le_refl _, le_refl _, fun _ => le_refl _⟩
      | none =>
        simp only [hd] at h
        cases Option.some.inj h
        exact ⟨le_refl _, le_refl _, fun _ => le_refl _⟩
    | TextMsg text temp =>
      simp only [step] at h
      cases hd : s.profile_dialog with
      | some st =>
        simp only [hd] at h
        cases hps : profile_step st s.scratch s.record text temp with
        | none =>
          simp only [hps] at h
          exact Option.noConfusion h
        | some trip =>
          obtain ⟨st1, sc1, r1⟩ := trip
          simp only [hps] at h
          cases Option.some.inj h
          rcases profile_step_record_cases hps with
            hrr | ⟨w, hh, a, act, c, v, hw, hhh, hha, hact, hc, hcommit⟩
          · subst hrr
            exact ⟨le_refl _, le_refl _, fun _ => le_refl _⟩
          · subst hcommit
            exact ⟨le_refl _, le_refl _, fun _ => le_refl _⟩
      | none =>
        simp only [hd] at h
        by_cases hf : s.food_dialog = true
        · rcases hlg : log_food_grams s.record text with ⟨rec2, cont⟩
          simp only [hf, if_true, hlg] at h
          cases Option.some.inj h
          rcases log_food_grams_cases hlg with h1 | h1 | ⟨pf, g, hpend, hp, hg, h1⟩
          · obtain ⟨hrec, hcont⟩ := Prod.mk.injEq .. |>.mp h1
            subst hrec
            exact ⟨le_refl _, le_refl _, fun _ => le_refl _⟩
          · obtain ⟨hrec, hcont⟩ := Prod.mk.injEq .. |>.mp h1
            subst hrec
            exact ⟨le_refl _, le_refl _, fun _ => le_refl _⟩
          · obtain ⟨hrec, hcont⟩ := Prod.mk.injEq .. |>.mp h1
            subst hrec
            refine ⟨le_refl _, le_refl _, ?_⟩
            intro hnn
            have hk : 0 ≤ pf.kcal_per_100g := hnn pf hpend
            have hkg : 0 ≤ pf.kcal_per_100g * g / 100 :=
              div_nonneg (mul_nonneg hk hg.le) (by norm_num)
            exact le_add_of_nonneg_right hkg
        · simp only [hf, if_false] at h
          cases Option.some.inj h
          exact ⟨le_refl _, le_refl _, fun _ => le_refl _⟩
    | LogWaterCmd args =>
      simp only [step] at h
      cases hlw : log_water s.record args with
      | none =>
        simp only [hlw] at h
        exact Option.noConfusion h
      | some r2 =>
        simp only [hlw, Option.map_some'] at h
        cases Option.some.inj h
        rcases log_water_cases hlw with hrr | ⟨a, rest, amt, _, _, hamt, _, _, hr2⟩
        · subst hrr
          exact ⟨le_refl _, le_refl _, fun _ => le_refl _⟩
        · subst hr2
          exact ⟨le_add_of_nonneg_right hamt.le, le_refl _, fun _ => le_refl _⟩
    | LogFoodCmd args response =>
      simp only [step] at h
      by_cases hf : s.food_dialog = true
      · simp only [hf, if_true] at h
        cases Option.some.inj h
        exact ⟨le_refl _, le_refl _, fun _ => le_refl _⟩
      · rcases hlf : log_food s.record args response with ⟨rec2, entered⟩
        simp only [hf, if_false, hlf] at h
        cases Option.some.inj h
        rcases log_food_cases hlf with h1 | ⟨pf, h1⟩
        · dsimp only at h1
          subst h1
          exact ⟨le_refl _, le_refl _, fun _ => le_refl _⟩
        · dsimp only at h1
          subst h1
          exact ⟨le_refl _, le_refl _, fun _ => le_refl _⟩
    | LogWorkoutCmd args =>
      simp only [step] at h
      cases Option.some.inj h
      rcases log_workout_cases (rfl : log_workout s.record args = _) with
        hrr | ⟨w, ty, mins, rest, m, hargs, hw, hp, hm, heq⟩
      · rw [hrr]
        exact ⟨le_refl _, le_refl _, fun _ => le_refl _⟩
      · rw [heq]
        have hburn : 0 ≤ calc_workout_burned ty m w :=
          calc_workout_burned_nonneg ty hm.le (hI.wpos w hw).le
        exact ⟨le_refl _, le_add_of_nonneg_right hburn, fun _ => le_refl _⟩
    | CheckProgressCmd =>
      simp only [step] at h
      cases hcp : check_progress s.record with
      | err =>
        simp only [hcp] at h
        exact Option.noConfusion h
      | ok rep =>
        simp only [hcp] at h
        cases Option.some.inj h
        exact ⟨le_refl _, le_refl _, fun _ => le_refl _⟩
    | CancelCmd =>
      simp only [step] at h
      cases hd : s.profile_dialog with
      | some st =>
        simp only [hd] at h
        cases Option.some.inj h
        exact ⟨le_refl _, le_refl _, fun _ => le_refl _⟩
      | none =>
        simp only [hd] at h
        by_cases hf : s.food_dialog = true
        · simp only [hf, if_true] at h
          cases Option.some.inj h
          exact ⟨le_refl _, le_refl _, fun _ => le_refl _⟩
        · simp only [hf, if_false] at h
          cases Option.some.inj h
          exact ⟨le_refl _, le_refl _, fun _ => le_refl _⟩
  · intro s s' a rest amt w h hw hp hamt
    have hnle : ¬amt ≤ 0 := not_le.mpr hamt
    simp only [step, log_water, hw, hp, hnle, if_false] at h
    cases hg : s.record.water_goal with
    | none =>
      rw [hg] at h
      exact Option.noConfusion h
    | some wg =>
      rw [hg] at h
      cases Option.some.inj h
      rfl
  · intro s s' ty mins rest m w h hw hp hm
    have hnle : ¬m ≤ 0 := not_le.mpr hm
    simp only [step, log_workout, hw, hp, hnle, if_false] at h
    cases Option.some.inj h
    rfl
  · intro s s' text temp pf g h hd hf hpend hp hg
    have hnle : ¬g ≤ 0 := not_le.mpr hg
    simp only [step, hd, hf, if_true, log_food_grams, hpend, hp, hnle, if_false] at h
    cases Option.some.inj h
    exact ⟨rfl, rfl⟩

/-- Closed instance of the C5 amended theorem: the progress report leaves all
three accumulators of the initial state unchanged. -/
theorem accumulators_monotone_amended_witness :
    init_state.record.logged_water ≤ init_state.record.logged_water ∧
    init_state.record.burned_calories ≤ init_state.record.burned_calories ∧
    ((∀ pf, init_state.record.pending_food = some pf → 0 ≤ pf.kcal_per_100g) →
      init_state.record.logged_calories ≤ init_state.record.logged_calories) :=
  accumulators_monotone_amended.1 init_state init_state Event.CheckProgressCmd
    Reachable.init rfl

/-- Closed instance of the C2 theorem: override 0 at the spec's worked
example (70 kg, 175 cm, 30 years, 45 min, Moscow) auto-computes the goal. -/
theorem calorie_goal_override_meets_spec_witness :
    set_cal_goal { weight := some 70, height := some 175, age := some 30
                 , activity := some 45, city := some "Moscow" }
        init_record "0" none =
      some (none, Scratch.emptyData,
        { init_record with
            weight := some 70, height := some 175, age := some 30
          , activity := some 45, city := some "Moscow"
          , water_goal := some (calc_water_goal 70 45 none)
          , calorie_goal :=
              some (if 0 < (0 : ℚ) then (0 : ℚ)
                    else calc_calorie_goal 70 175 30 45) }) :=
  calorie_goal_override_meets_spec.2 70 175 30 45 "Moscow" init_record "0" none 0
    (by simp +decide [parse_float, pyFloat, pyFloatUnsigned, pyDigits, pyDigitsFrom])
    le_rfl
